import Mathlib

/-!
Shallow embedding of `src/collector.py` (tfa-prometheus-exporter).

Time is modelled in minutes as rationals: `timedelta(minutes=1)` is `1`,
`timedelta(minutes=8)` is `8`.  `datetime.min` is modelled by the constant
`datetimeMin`; no proof depends on its value.  A Python `dict` is modelled
as an association list in insertion order: assignment replaces an existing
key in place, otherwise appends.
-/

/-- A Python exception value, at the granularity the collector code can
distinguish.  `connectionError` is the *builtin* `ConnectionError`;
`requestsConnectionError` models `requests.exceptions.ConnectionError`,
which is NOT a subclass of the builtin one (it derives from
`RequestException`/`IOError`), so it is caught by `except Exception`,
not by `except ConnectionError`. -/
inductive PyExc
  | keyError (key : String)
  | typeError (msg : String)
  | connectionError
  | requestsConnectionError
  | otherError (msg : String)
deriving DecidableEq, Repr

/-- Which exceptions the `except ConnectionError` clause on line 115 of
`collector.py` matches: the builtin `ConnectionError` and its subclasses. -/
def isBuiltinConnectionError : PyExc → Bool
  | .connectionError => true
  | _ => false

/-- Keyword argument names accepted by CPython's `Logger._log`
(`logging/__init__.py`): any other keyword passed to `logging.error`
raises `TypeError`. -/
def loggingAllowedKwargs : List String := ["exc_info", "extra", "stack_info", "stacklevel"]

/-- A call `logging.error(msg, **kwargs)`: succeeds if every keyword is one
`Logger._log` accepts, otherwise raises `TypeError`.  (The root logger's
effective level lets ERROR records through both in the configured program,
`basicConfig(level=INFO)`, and at the WARNING default, so `_log` is always
reached.) -/
def logErrorCall (kwargs : List String) : Except PyExc Unit :=
  if kwargs.all (fun k => loggingAllowedKwargs.contains k) then .ok ()
  else .error (.typeError "got an unexpected keyword argument")

/-- Python dict lookup `d[k]` as an Option (None for a missing key). -/
def dictGet? {α : Type} : List (String × α) → String → Option α
  | [], _ => none
  | p :: rest, k => if p.1 = k then some p.2 else dictGet? rest k

/-- Python dict assignment `d[k] = v`: replace the entry for `k` in place if
present, otherwise append a new entry. -/
def dictInsert {α : Type} : List (String × α) → String → α → List (String × α)
  | [], k, v => [(k, v)]
  | p :: rest, k, v => if p.1 = k then (k, v) :: rest else p :: dictInsert rest k v

/-- `Settings` (collector.py lines 13-25): validated configuration. -/
structure Settings where
  phone_id : String
  sensor_ids : List String
deriving DecidableEq, Repr

/-- `Settings.__init__` (collector.py lines 18-25): raises `ValueError`
with a message naming the offending field when `phone_id` is falsy (the
empty string) or `sensor_ids` is falsy (the empty list); otherwise stores
both fields. -/
def Settings.init (phone_id : String) (sensor_ids : List String) : Except String Settings :=
  if phone_id = "" then .error "phone_id needs to be defined in settings"
  else if sensor_ids = [] then .error "sensor_ids need to be defined in settings"
  else .ok ⟨phone_id, sensor_ids⟩

/-- A cached measurement: the Python dict
`\x7b"temperature": t, "humidity": h\x7d` built on lines 109-112,
modelled as an association list. -/
abbrev Meas : Type := List (String × ℚ)

/-- The dict literal stored into the cache on lines 109-112. -/
def mkMeas (t h : ℚ) : Meas := [("temperature", t), ("humidity", h)]

/-- The shared cache `last_measurement : dict[str, dict[str, float]]`. -/
abbrev Cache : Type := List (String × Meas)

/-- Dict subscript `m[k]` raising `KeyError` on a missing key. -/
def getItem (m : Meas) (k : String) : Except PyExc ℚ :=
  match dictGet? m k with
  | some v => .ok v
  | none => .error (.keyError k)

/-- One `GaugeMetricFamily`: its metric name and its samples, each sample a
(deviceid label value, gauge value) pair in `add_metric` order. -/
structure GaugeFamily where
  name : String
  samples : List (String × ℚ)
deriving DecidableEq, Repr

/-- The loop on lines 72-74 of `collect`: for each cache entry, in order,
`add_metric` the entry's `"temperature"` to the temperature gauge and its
`"humidity"` to the humidity gauge; a missing key raises `KeyError`. -/
def collectSamples : Cache → Except PyExc (List (String × ℚ) × List (String × ℚ))
  | [] => .ok ([], [])
  | (deviceid, m) :: rest => do
    let t ← getItem m "temperature"
    let h ← getItem m "humidity"
    let (ts, hs) ← collectSamples rest
    .ok ((deviceid, t) :: ts, (deviceid, h) :: hs)

/-- `TFACollector.collect` (lines 65-77): a pure function of the cache.  If
the cache is falsy (empty) it returns without yielding anything; otherwise
it builds the two gauge families and yields the temperature family then the
humidity family.  It mutates no state. -/
def collect (cache : Cache) : Except PyExc (List GaugeFamily) :=
  if cache = [] then .ok []
  else
    (collectSamples cache).map fun p =>
      [⟨"tfa_sensor_temperature", p.1⟩, ⟨"tfa_sensor_humidity", p.2⟩]

/-- One element of the `devices` array of a 200 response body.  `none`
models a missing JSON key: `t1 = none` stands for a missing
`"measurement"` or `"t1"` key (either raises `KeyError` at the same
program point), likewise `h` and `deviceid`. -/
structure RawDevice where
  deviceid : Option String
  t1 : Option ℚ
  h : Option ℚ
deriving DecidableEq, Repr

/-- A device element with all keys present, as lines 108-112 expect. -/
def mkDevice (deviceid : String) (t h : ℚ) : RawDevice := ⟨some deviceid, some t, some h⟩

/-- The loop body of lines 108-112 for one device.  Python evaluates the
right-hand dict display first (`t1` then `h`), then the subscript target
(`deviceid`); the first missing key raises `KeyError`. -/
def deviceStep (c : Cache) (d : RawDevice) : Except PyExc Cache :=
  match d.t1 with
  | none => .error (.keyError "t1")
  | some t =>
    match d.h with
    | none => .error (.keyError "h")
    | some h =>
      match d.deviceid with
      | none => .error (.keyError "deviceid")
      | some deviceid => .ok (dictInsert c deviceid (mkMeas t h))

/-- The `for device in devices` loop (lines 108-112): devices are written
one at a time; a `KeyError` part-way through leaves the writes already made
and aborts the rest. -/
def processDevices : Cache → List RawDevice → Cache × Option PyExc
  | c, [] => (c, none)
  | c, d :: rest =>
    match deviceStep c d with
    | .ok c' => processDevices c' rest
    | .error e => (c, some e)

/-- `self.interval = timedelta(minutes=1)` (line 51), in minutes. -/
def interval : ℚ := 1

/-- `datetime.min` (line 55).  The model fixes it at the origin of the
rational time axis; no theorem depends on its value. -/
def datetimeMin : ℚ := 0

/-- The mutable per-collector state touched by the polling loop. -/
structure PollerState where
  settings : Settings
  last_request_time : ℚ
  last_measurement : Cache
  running : Bool
deriving DecidableEq, Repr

/-- State after `start()` (lines 54-58): `last_request_time = datetime.min`,
`running = True`; the class-level cache starts empty. -/
def startState (settings : Settings) : PollerState :=
  { settings := settings, last_request_time := datetimeMin,
    last_measurement := [], running := true }

/-- `ratelimit_backoff` (lines 121-124): logs a warning and sets
`last_request_time = datetime.now() + timedelta(minutes=8)`; `backoffNow`
is the fresh `datetime.now()` sample taken inside the method. -/
def ratelimit_backoff (s : PollerState) (backoffNow : ℚ) : PollerState :=
  { s with last_request_time := backoffNow + 8 }

/-- Externally visible actions of one loop iteration, in program order. -/
inductive Event
  | sleep15
  | setLastRequestTime (t : ℚ)
  | httpPost (phoneid : String) (deviceids : String)
deriving DecidableEq, Repr

/-- How one loop iteration ends: idle-wait slept, or a request was made and
the loop continues, or an exception escaped the loop body and the thread
died. -/
inductive IterResult
  | slept
  | polled
  | died (e : PyExc)
deriving DecidableEq, Repr

/-- What the environment did for this iteration's request:
`requests.post` raised, or it returned a response with a status code and
(for 200 bodies) the result of `response.json()["devices"]` — an exception
or a list of raw device elements. -/
inductive RequestOutcome
  | raised (e : PyExc)
  | response (status : Nat) (body : Except PyExc (List RawDevice))
deriving Repr

/-- The `except` clauses of lines 115-118.  A builtin `ConnectionError`
reaches line 116, `logging.error("Failed to connect to API",
exec_info=error)`, whose misspelled keyword raises `TypeError`; a
`TypeError` raised inside an except handler is not caught by the sibling
`except Exception` clause, so it escapes.  Every other exception reaches
line 118, which spells `exc_info` correctly and succeeds. -/
def handleLoopException (e : PyExc) : Except PyExc Unit :=
  if isBuiltinConnectionError e then logErrorCall ["exec_info"]
  else logErrorCall ["exc_info"]

/-- Response dispatch and exception handling of lines 96-118, run after
`last_request_time` was set to `now` (the state `s1`): the status-code
cases for 429 / non-200 / 200, the device loop, and the `except` clauses.
Returns the state after the iteration, how it ended, and the events it
performed after the POST. -/
def dispatch_response (s1 : PollerState) (backoffNow : ℚ) (o : RequestOutcome) :
    PollerState × IterResult × List Event :=
  match o with
  | .raised e =>
    match handleLoopException e with
    | .ok _ => (s1, .polled, [])
    | .error e' => (s1, .died e', [])
  | .response status body =>
    if status = 429 then
      let s2 := ratelimit_backoff s1 backoffNow
      (s2, .polled, [.setLastRequestTime s2.last_request_time])
    else if status ≠ 200 then
      (s1, .polled, [])
    else
      match body with
      | .error e =>
        match handleLoopException e with
        | .ok _ => (s1, .polled, [])
        | .error e' => (s1, .died e', [])
      | .ok devices =>
        let pr := processDevices s1.last_measurement devices
        let s2 := { s1 with last_measurement := pr.1 }
        match pr.2 with
        | none => (s2, .polled, [])
        | some e =>
          match handleLoopException e with
          | .ok _ => (s2, .polled, [])
          | .error e' => (s2, .died e', [])

/-- One iteration of the `while self.running` loop body
(`__fetch_measurements`, lines 81-118).  `now` is the `datetime.now()`
sample of line 82; `backoffNow` the one `ratelimit_backoff` would take.
If the 1-minute interval has not elapsed it sleeps 15 seconds (lines
84-86); otherwise it first sets `last_request_time = now` (line 88), then
posts the request body built on lines 90-93, then dispatches on the
outcome.  Returns the new state, how the iteration ended, and its event
trace. -/
def fetch_measurements_iter (s : PollerState) (now backoffNow : ℚ)
    (o : RequestOutcome) : PollerState × IterResult × List Event :=
  if s.last_request_time + interval > now then
    (s, .slept, [.sleep15])
  else
    let s1 := { s with last_request_time := now }
    let d := dispatch_response s1 backoffNow o
    (d.1, d.2.1,
      Event.setLastRequestTime now ::
        Event.httpPost s.settings.phone_id (String.intercalate "," s.settings.sensor_ids) ::
        d.2.2)

/-- The environment data consumed by one loop iteration. -/
structure IterInput where
  now : ℚ
  backoffNow : ℚ
  outcome : RequestOutcome
deriving Repr

/-- Run the polling loop over a list of iteration inputs: the loop checks
`running` at the top of each iteration, and stops for good if an iteration
dies of an uncaught exception.  Returns the final state, the uncaught
exception if any, and the concatenated event trace. -/
def runIters : PollerState → List IterInput → PollerState × Option PyExc × List Event
  | s, [] => (s, none, [])
  | s, i :: rest =>
    if s.running then
      match fetch_measurements_iter s i.now i.backoffNow i.outcome with
      | (s', r, evs) =>
        match r with
        | .died e => (s', some e, evs)
        | _ =>
          let t := runIters s' rest
          (t.1, t.2.1, evs ++ t.2.2)
    else (s, none, [])

/-- The reading stored for `deviceid` by the device loop if the list `l` of
(deviceid, t1, h) triples is processed in order: the last triple with that
id wins; `none` if no triple has that id. -/
def lastReading? : List (String × ℚ × ℚ) → String → Option Meas
  | [], _ => none
  | (i, t, h) :: rest, deviceid =>
    match lastReading? rest deviceid with
    | some m => some m
    | none => if i = deviceid then some (mkMeas t h) else none

/-- Every value ever stored in the cache is a dict with exactly the keys
`"temperature"` and `"humidity"`, in that order. -/
def cacheWF (c : Cache) : Prop :=
  ∀ p ∈ c, p.2.map Prod.fst = ["temperature", "humidity"]

/-! ## Helper lemmas -/

theorem dictGet_dictInsert {α : Type} (c : List (String × α)) (k k' : String) (v : α) :
    dictGet? (dictInsert c k v) k' = if k' = k then some v else dictGet? c k' := by
  induction c with
  | nil =>
    by_cases h : k' = k
    · subst h; simp [dictInsert, dictGet?]
    · have h2 : ¬ k = k' := fun hh => h hh.symm
      simp [dictInsert, dictGet?, h, h2]
  | cons p rest ih =>
    by_cases hpk : p.1 = k
    · by_cases h : k' = k
      · subst h; simp [dictInsert, dictGet?, hpk]
      · have h2 : ¬ k = k' := fun hh => h hh.symm
        have h3 : ¬ p.1 = k' := by rw [hpk]; exact h2
        simp [dictInsert, dictGet?, hpk, h, h2, h3]
    · by_cases hpk' : p.1 = k'
      · have h : ¬ k' = k := fun hh => hpk (by rw [hpk', hh])
        simp [dictInsert, dictGet?, hpk, hpk', h]
      · simp [dictInsert, dictGet?, hpk, hpk', ih]

theorem mem_dictInsert {α : Type} {c : List (String × α)} {k : String} {v : α}
    {p : String × α} (hp : p ∈ dictInsert c k v) : p ∈ c ∨ p = (k, v) := by
  induction c with
  | nil => simp [dictInsert] at hp; right; exact hp
  | cons q rest ih =>
    by_cases hq : q.1 = k
    · simp only [dictInsert, if_pos hq, List.mem_cons] at hp
      rcases hp with h | h
      · right; exact h
      · left; exact List.mem_cons_of_mem _ h
    · simp only [dictInsert, if_neg hq, List.mem_cons] at hp
      rcases hp with h | h
      · left; exact h ▸ List.mem_cons_self _ _
      · rcases ih h with h' | h'
        · left; exact List.mem_cons_of_mem _ h'
        · right; exact h'

theorem processDevices_map_mkDevice (l : List (String × ℚ × ℚ)) (c : Cache) :
    processDevices c (l.map fun x => mkDevice x.1 x.2.1 x.2.2) =
      (l.foldl (fun c x => dictInsert c x.1 (mkMeas x.2.1 x.2.2)) c, none) := by
  induction l generalizing c with
  | nil => simp [processDevices]
  | cons x rest ih =>
    simp only [List.map_cons, List.foldl_cons, processDevices, deviceStep, mkDevice]
    exact ih _

theorem dictGet_foldl (l : List (String × ℚ × ℚ)) (c : Cache) (deviceid : String) :
    dictGet? (l.foldl (fun c x => dictInsert c x.1 (mkMeas x.2.1 x.2.2)) c) deviceid =
      match lastReading? l deviceid with
      | some m => some m
      | none => dictGet? c deviceid := by
  induction l generalizing c with
  | nil => simp [lastReading?]
  | cons x rest ih =>
    obtain ⟨i, t, h⟩ := x
    simp only [List.foldl_cons, lastReading?]
    rw [ih]
    cases hr : lastReading? rest deviceid with
    | some m => simp
    | none =>
      simp only []
      rw [dictGet_dictInsert]
      by_cases hid : deviceid = i
      · subst hid; simp
      · have : ¬ i = deviceid := fun hh => hid hh.symm
        simp [hid, this]

theorem cacheWF_dictInsert {c : Cache} {deviceid : String} {t h : ℚ}
    (hc : cacheWF c) : cacheWF (dictInsert c deviceid (mkMeas t h)) := by
  intro p hp
  rcases mem_dictInsert hp with h' | h'
  · exact hc p h'
  · rw [h']; rfl

theorem cacheWF_processDevices {c : Cache} (ds : List RawDevice)
    (hc : cacheWF c) : cacheWF (processDevices c ds).1 := by
  induction ds generalizing c with
  | nil => exact hc
  | cons d rest ih =>
    simp only [processDevices]
    cases hd : deviceStep c d with
    | ok c' =>
      have hc' : cacheWF c' := by
        unfold deviceStep at hd
        cases ht : d.t1 with
        | none => rw [ht] at hd; cases hd
        | some t =>
          cases hh : d.h with
          | none => rw [ht, hh] at hd; cases hd
          | some h =>
            cases hi : d.deviceid with
            | none => rw [ht, hh, hi] at hd; cases hd
            | some i =>
              rw [ht, hh, hi] at hd
              cases hd
              exact cacheWF_dictInsert hc
      exact ih hc'
    | error e => exact hc

/-- Cache effect of response dispatch: either the cache is untouched, or
the outcome was a 200 response whose `devices` list was processed by the
device loop. -/
theorem dispatch_cache_cases (s1 : PollerState) (backoffNow : ℚ) (o : RequestOutcome) :
    (dispatch_response s1 backoffNow o).1.last_measurement = s1.last_measurement ∨
    ∃ devices, o = .response 200 (.ok devices) ∧
      (dispatch_response s1 backoffNow o).1.last_measurement =
        (processDevices s1.last_measurement devices).1 := by
  unfold dispatch_response
  cases o with
  | raised e =>
    cases hl : handleLoopException e <;> simp [hl]
  | response status body =>
    by_cases h429 : status = 429
    · subst h429; simp [ratelimit_backoff]
    · by_cases h200 : status = 200
      · subst h200
        simp only [if_neg h429]
        cases body with
        | error e =>
          cases hl : handleLoopException e <;> simp [hl]
        | ok devices =>
          right
          refine ⟨devices, rfl, ?_⟩
          cases hp : processDevices s1.last_measurement devices with
          | mk c' exc =>
            cases exc with
            | none => simp [hp]
            | some e => cases hl : handleLoopException e <;> simp [hp, hl]
      · simp [h429, h200]

/-- Cache effect of one loop iteration: either the cache is untouched, or
the iteration was a 200 response whose `devices` list was processed by the
device loop. -/
theorem iter_cache_cases (s : PollerState) (now backoffNow : ℚ) (o : RequestOutcome) :
    (fetch_measurements_iter s now backoffNow o).1.last_measurement = s.last_measurement ∨
    ∃ devices, o = .response 200 (.ok devices) ∧
      (fetch_measurements_iter s now backoffNow o).1.last_measurement =
        (processDevices s.last_measurement devices).1 := by
  unfold fetch_measurements_iter
  split
  · left; rfl
  · simpa using dispatch_cache_cases { s with last_request_time := now } backoffNow o

theorem cacheWF_iter (s : PollerState) (now backoffNow : ℚ) (o : RequestOutcome)
    (hs : cacheWF s.last_measurement) :
    cacheWF (fetch_measurements_iter s now backoffNow o).1.last_measurement := by
  rcases iter_cache_cases s now backoffNow o with h | ⟨devices, _, h⟩
  · rw [h]; exact hs
  · rw [h]; exact cacheWF_processDevices devices hs

theorem cacheWF_runIters (s : PollerState) (inputs : List IterInput)
    (hs : cacheWF s.last_measurement) :
    cacheWF (runIters s inputs).1.last_measurement := by
  induction inputs generalizing s with
  | nil => exact hs
  | cons i rest ih =>
    unfold runIters
    by_cases hr : s.running
    · simp only [if_pos hr]
      have hwf := cacheWF_iter s i.now i.backoffNow i.outcome hs
      cases hit : fetch_measurements_iter s i.now i.backoffNow i.outcome with
      | mk s' q =>
        rw [hit] at hwf
        cases q.1 with
        | died e => exact hwf
        | slept => exact ih s' hwf
        | polled => exact ih s' hwf
    · simp only [if_neg hr]; exact hs

/-- If every input's clock sample is still inside the idle window, the loop
only sleeps: the state never changes and every event is a 15-second sleep. -/
theorem runIters_idle (s : PollerState) (inputs : List IterInput)
    (h : ∀ i ∈ inputs, i.now < s.last_request_time + interval) :
    (runIters s inputs).1 = s ∧ ∀ e ∈ (runIters s inputs).2.2, e = Event.sleep15 := by
  induction inputs with
  | nil => exact ⟨rfl, by simp [runIters]⟩
  | cons i rest ih =>
    unfold runIters
    by_cases hr : s.running
    · have hguard : s.last_request_time + interval > i.now := h i (List.mem_cons_self _ _)
      have hit : fetch_measurements_iter s i.now i.backoffNow i.outcome =
          (s, .slept, [.sleep15]) := by
        unfold fetch_measurements_iter
        rw [if_pos hguard]
      rw [if_pos hr, hit]
      obtain ⟨ih1, ih2⟩ := ih (fun j hj => h j (List.mem_cons_of_mem _ hj))
      refine ⟨ih1, ?_⟩
      intro e he
      simp only [List.mem_append, List.mem_singleton] at he
      rcases he with he | he
      · exact he
      · exact ih2 e he
    · rw [if_neg hr]
      exact ⟨rfl, by simp⟩

theorem measWF_shape {m : Meas} (h : m.map Prod.fst = ["temperature", "humidity"]) :
    ∃ t hum, m = mkMeas t hum := by
  rcases m with _ | ⟨⟨ka, va⟩, _ | ⟨⟨kb, vb⟩, rest⟩⟩
  · simp at h
  · simp at h
  · simp only [List.map_cons, List.cons.injEq, List.map_eq_nil_iff] at h
    exact ⟨va, vb, by simp [mkMeas, h.1, h.2.1, h.2.2]⟩

theorem dictGet_mkMeas_temperature (t hum : ℚ) :
    dictGet? (mkMeas t hum) "temperature" = some t := by
  simp [mkMeas, dictGet?]

theorem dictGet_mkMeas_humidity (t hum : ℚ) :
    dictGet? (mkMeas t hum) "humidity" = some hum := by
  simp [mkMeas, dictGet?]

theorem collectSamples_wf (c : Cache) (hwf : cacheWF c) :
    collectSamples c =
      .ok (c.map (fun p => (p.1, (dictGet? p.2 "temperature").getD 0)),
           c.map (fun p => (p.1, (dictGet? p.2 "humidity").getD 0))) := by
  induction c with
  | nil => rfl
  | cons p rest ih =>
    obtain ⟨deviceid, m⟩ := p
    obtain ⟨t, hum, rfl⟩ := measWF_shape (hwf _ (List.mem_cons_self _ _))
    have ihr := ih (fun q hq => hwf q (List.mem_cons_of_mem _ hq))
    simp only [collectSamples, ihr, getItem, dictGet_mkMeas_temperature,
      dictGet_mkMeas_humidity, List.map_cons]
    rfl

/-! ## Claim theorems -/

/-- Claim C6: `Settings` construction succeeds for every non-empty
`phone_id` string paired with a non-empty `sensor_ids` list (producing a
`Settings` value holding exactly those fields), and fails with a
`ValueError` naming the offending field when `phone_id` is empty or when
`sensor_ids` is empty; on failure no `Settings` value is produced. -/
theorem settings_init_validation (phone_id : String) (sensor_ids : List String) :
    (phone_id ≠ "" → sensor_ids ≠ [] →
      Settings.init phone_id sensor_ids = .ok ⟨phone_id, sensor_ids⟩) ∧
    (phone_id = "" →
      Settings.init phone_id sensor_ids =
        .error "phone_id needs to be defined in settings") ∧
    (phone_id ≠ "" → sensor_ids = [] →
      Settings.init phone_id sensor_ids =
        .error "sensor_ids need to be defined in settings") := by
  refine ⟨?_, ?_, ?_⟩ <;> intros <;> simp_all [Settings.init]

/-- Witness for C6 at concrete inputs. -/
theorem settings_init_validation_witness :
    Settings.init "gateway" ["a"] = .ok ⟨"gateway", ["a"]⟩ ∧
    Settings.init "" ["a"] = .error "phone_id needs to be defined in settings" ∧
    Settings.init "gateway" [] = .error "sensor_ids need to be defined in settings" :=
  ⟨(settings_init_validation "gateway" ["a"]).1 (by decide) (by simp),
   (settings_init_validation "" ["a"]).2.1 rfl,
   (settings_init_validation "gateway" []).2.2 (by decide) rfl⟩

/-- Claim C3: in a poll iteration whose response status is neither 200 nor
429, the cache is left exactly as it was (no entry added, removed or
altered) and the loop continues to the next iteration. -/
theorem other_status_leaves_cache (s : PollerState) (now backoffNow : ℚ)
    (status : Nat) (body : Except PyExc (List RawDevice))
    (hguard : s.last_request_time + interval ≤ now)
    (h200 : status ≠ 200) (h429 : status ≠ 429) :
    (fetch_measurements_iter s now backoffNow (.response status body)).1.last_measurement
        = s.last_measurement ∧
    (fetch_measurements_iter s now backoffNow (.response status body)).2.1
        = .polled := by
  unfold fetch_measurements_iter dispatch_response
  rw [if_neg (not_lt.mpr hguard)]
  simp [h429, h200]

/-- Witness for C3: a 500 response against a fresh collector. -/
theorem other_status_leaves_cache_witness :
    (fetch_measurements_iter (startState ⟨"g", ["a"]⟩) 1 1
        (.response 500 (.ok []))).1.last_measurement = [] ∧
    (fetch_measurements_iter (startState ⟨"g", ["a"]⟩) 1 1
        (.response 500 (.ok []))).2.1 = .polled := by
  have h := other_status_leaves_cache (startState ⟨"g", ["a"]⟩) 1 1 500 (.ok [])
    (by norm_num [startState, datetimeMin, interval]) (by decide) (by decide)
  simpa [startState] using h

/-- Claim C8: every iteration that reaches the Request step (the 1-minute
interval has elapsed) performs the assignment `last_request_time = now`
strictly before issuing the HTTP POST, and the POST body carries
`phone_id` as `phoneid` and the comma-joined `sensor_ids` as `deviceids`:
the event trace begins with the assignment followed by the post. -/
theorem set_time_before_post (s : PollerState) (now backoffNow : ℚ)
    (o : RequestOutcome)
    (hguard : s.last_request_time + interval ≤ now) :
    ∃ rest, (fetch_measurements_iter s now backoffNow o).2.2 =
      Event.setLastRequestTime now ::
        Event.httpPost s.settings.phone_id
          (String.intercalate "," s.settings.sensor_ids) :: rest := by
  unfold fetch_measurements_iter
  rw [if_neg (not_lt.mpr hguard)]
  exact ⟨_, rfl⟩

/-- Witness for C8 at a concrete iteration. -/
theorem set_time_before_post_witness :
    ∃ rest, (fetch_measurements_iter (startState ⟨"g", ["a", "b"]⟩) 1 1
        (.response 200 (.ok []))).2.2 =
      Event.setLastRequestTime 1 :: Event.httpPost "g" "a,b" :: rest := by
  have h := set_time_before_post (startState ⟨"g", ["a", "b"]⟩) 1 1
    (.response 200 (.ok [])) (by norm_num [startState, datetimeMin, interval])
  simpa [startState] using h

/-- Claim C2: a poll iteration whose response has status 429 sets
`last_request_time` to the backoff-time `datetime.now()` sample plus 8
minutes, mutates no cache entry, and continues the loop; afterwards, as
long as the wall clock has not passed that instant, every iteration takes
the idle-wait branch — the state stays fixed and only 15-second sleeps
happen, so no further vendor request is issued. -/
theorem backoff_on_429 (s : PollerState) (now backoffNow : ℚ)
    (body : Except PyExc (List RawDevice))
    (hguard : s.last_request_time + interval ≤ now) :
    ∃ s', fetch_measurements_iter s now backoffNow (.response 429 body) =
        (s', .polled,
         [.setLastRequestTime now,
          .httpPost s.settings.phone_id (String.intercalate "," s.settings.sensor_ids),
          .setLastRequestTime (backoffNow + 8)]) ∧
      s'.last_request_time = backoffNow + 8 ∧
      s'.last_measurement = s.last_measurement ∧
      (∀ t tb o', t ≤ backoffNow + 8 →
        fetch_measurements_iter s' t tb o' = (s', .slept, [.sleep15])) ∧
      (∀ inputs : List IterInput, (∀ i ∈ inputs, i.now ≤ backoffNow + 8) →
        (runIters s' inputs).1 = s' ∧
        ∀ e ∈ (runIters s' inputs).2.2, e = Event.sleep15) := by
  refine ⟨{ s with last_request_time := backoffNow + 8 }, ?_, rfl, rfl, ?_, ?_⟩
  · unfold fetch_measurements_iter dispatch_response
    rw [if_neg (not_lt.mpr hguard)]
    simp [ratelimit_backoff]
  · intro t tb o' ht
    unfold fetch_measurements_iter
    rw [if_pos]
    show (t : ℚ) < backoffNow + 8 + interval
    unfold interval
    linarith
  · intro inputs hin
    refine runIters_idle _ inputs (fun i hi => ?_)
    have := hin i hi
    show (i.now : ℚ) < backoffNow + 8 + interval
    unfold interval
    linarith

/-- Witness for C2: a 429 response two minutes into the epoch pushes
`last_request_time` to minute 10, and an iteration at minute 9 only
sleeps. -/
theorem backoff_on_429_witness :
    ∃ s', fetch_measurements_iter (startState ⟨"g", ["a"]⟩) 1 2
        (.response 429 (.ok [])) =
      (s', .polled,
       [.setLastRequestTime 1, .httpPost "g" "a", .setLastRequestTime (2 + 8)]) ∧
      s'.last_request_time = 2 + 8 ∧
      s'.last_measurement = [] ∧
      fetch_measurements_iter s' 9 9 (.response 200 (.ok [])) =
        (s', .slept, [.sleep15]) := by
  obtain ⟨s', heq, hlast, hcache, hsleep, -⟩ :=
    backoff_on_429 (startState ⟨"g", ["a"]⟩) 1 2 (.ok [])
      (by norm_num [startState, datetimeMin, interval])
  refine ⟨s', ?_, hlast, hcache, hsleep 9 9 (.response 200 (.ok [])) (by norm_num)⟩
  simpa [startState] using heq


theorem dispatch_last_request_429 (s1 : PollerState) (backoffNow : ℚ)
    (body : Except PyExc (List RawDevice)) :
    (dispatch_response s1 backoffNow (.response 429 body)).1.last_request_time
      = backoffNow + 8 := by
  unfold dispatch_response
  simp [ratelimit_backoff]

theorem dispatch_last_request_not429 (s1 : PollerState) (backoffNow : ℚ)
    (o : RequestOutcome) (h : ∀ body, o ≠ .response 429 body) :
    (dispatch_response s1 backoffNow o).1.last_request_time
      = s1.last_request_time := by
  unfold dispatch_response
  cases o with
  | raised e => cases hl : handleLoopException e <;> simp [hl]
  | response status body =>
    have h429 : status ≠ 429 := fun hs => h body (by rw [hs])
    by_cases h200 : status = 200
    · subst h200
      simp only [if_neg h429]
      cases body with
      | error e => cases hl : handleLoopException e <;> simp [hl]
      | ok devices =>
        cases hp : processDevices s1.last_measurement devices with
        | mk c' exc =>
          cases exc with
          | none => simp [hp]
          | some e => cases hl : handleLoopException e <;> simp [hp, hl]
    · simp [h429, h200]

theorem dispatch_result_ne_slept (s1 : PollerState) (backoffNow : ℚ)
    (o : RequestOutcome) :
    (dispatch_response s1 backoffNow o).2.1 ≠ .slept := by
  unfold dispatch_response
  cases o with
  | raised e => cases hl : handleLoopException e <;> simp [hl]
  | response status body =>
    by_cases h429 : status = 429
    · subst h429; simp [ratelimit_backoff]
    · by_cases h200 : status = 200
      · subst h200
        simp only [if_neg h429]
        cases body with
        | error e => cases hl : handleLoopException e <;> simp [hl]
        | ok devices =>
          cases hp : processDevices s1.last_measurement devices with
          | mk c' exc =>
            cases exc with
            | none => simp [hp]
            | some e => cases hl : handleLoopException e <;> simp [hp, hl]
      · simp [h429, h200]

/-- Claim C7: `last_request_time` never moves backward, and each of the two
assignments that can fire in an iteration moves it strictly forward: in an
idle-wait iteration it is untouched; otherwise the pre-request assignment
stores `now`, which the elapsed-interval guard makes strictly greater than
the previous value, and on a 429 response the backoff assignment stores
`backoffNow + 8`, strictly greater than `now` (the clock samples being
taken in order, `now ≤ backoffNow`). -/
theorem last_request_time_monotone (s : PollerState) (now backoffNow : ℚ)
    (o : RequestOutcome) (hclock : now ≤ backoffNow) :
    s.last_request_time ≤ (fetch_measurements_iter s now backoffNow o).1.last_request_time ∧
    ((fetch_measurements_iter s now backoffNow o).2.1 = .slept →
      (fetch_measurements_iter s now backoffNow o).1.last_request_time
        = s.last_request_time) ∧
    ((fetch_measurements_iter s now backoffNow o).2.1 ≠ .slept →
      s.last_request_time < now ∧
      (∀ body, o = .response 429 body →
        (fetch_measurements_iter s now backoffNow o).1.last_request_time
            = backoffNow + 8 ∧
        now < backoffNow + 8) ∧
      (∀ status body, o = .response status body → status ≠ 429 →
        (fetch_measurements_iter s now backoffNow o).1.last_request_time = now) ∧
      (∀ e, o = .raised e →
        (fetch_measurements_iter s now backoffNow o).1.last_request_time = now)) := by
  by_cases hg : s.last_request_time + interval > now
  · have hit : fetch_measurements_iter s now backoffNow o = (s, .slept, [.sleep15]) := by
      unfold fetch_measurements_iter
      rw [if_pos hg]
    rw [hit]
    exact ⟨le_refl _, fun _ => rfl, fun hcon => absurd rfl hcon⟩
  · have hfetch1 : (fetch_measurements_iter s now backoffNow o).1 =
        (dispatch_response { s with last_request_time := now } backoffNow o).1 := by
      unfold fetch_measurements_iter
      rw [if_neg hg]
    have hfetch2 : (fetch_measurements_iter s now backoffNow o).2.1 =
        (dispatch_response { s with last_request_time := now } backoffNow o).2.1 := by
      unfold fetch_measurements_iter
      rw [if_neg hg]
    have hnow : s.last_request_time < now := by
      rw [not_lt] at hg
      have h1 : (0 : ℚ) < interval := by norm_num [interval]
      linarith
    refine ⟨?_, ?_, ?_⟩
    · rw [hfetch1]
      by_cases h429 : ∃ body, o = .response 429 body
      · obtain ⟨body, rfl⟩ := h429
        rw [dispatch_last_request_429]
        linarith
      · push_neg at h429
        rw [dispatch_last_request_not429 _ _ _ h429]
        exact le_of_lt hnow
    · intro hs
      rw [hfetch2] at hs
      exact absurd hs (dispatch_result_ne_slept _ _ _)
    · intro _
      refine ⟨hnow, ?_, ?_, ?_⟩
      · intro body hbo
        subst hbo
        rw [hfetch1, dispatch_last_request_429]
        exact ⟨rfl, by linarith⟩
      · intro status body hbo h429
        subst hbo
        rw [hfetch1, dispatch_last_request_not429]
        intro b hb
        apply h429
        injection hb
      · intro e hbo
        subst hbo
        rw [hfetch1, dispatch_last_request_not429]
        intro b hb
        exact RequestOutcome.noConfusion hb

/-- Witness for C7: after start, an iteration at minute 1 with a 429 backoff
sample at minute 2 moves `last_request_time` from 0 forward to 10. -/
theorem last_request_time_monotone_witness :
    (startState ⟨"g", ["a"]⟩).last_request_time ≤
      (fetch_measurements_iter (startState ⟨"g", ["a"]⟩) 1 2
        (.response 429 (.ok []))).1.last_request_time ∧
    (fetch_measurements_iter (startState ⟨"g", ["a"]⟩) 1 2
        (.response 429 (.ok []))).1.last_request_time = 2 + 8 := by
  obtain ⟨hle, -, hne⟩ := last_request_time_monotone (startState ⟨"g", ["a"]⟩) 1 2
    (.response 429 (.ok [])) (by norm_num)
  refine ⟨hle, ?_⟩
  have hslept : (fetch_measurements_iter (startState ⟨"g", ["a"]⟩) 1 2
      (.response 429 (.ok []))).2.1 ≠ .slept := by
    have hg : ¬ ((startState ⟨"g", ["a"]⟩).last_request_time + interval > (1:ℚ)) := by
      norm_num [startState, datetimeMin, interval]
    have hit : fetch_measurements_iter (startState ⟨"g", ["a"]⟩) 1 2
        (.response 429 (.ok [])) =
        (⟨⟨"g", ["a"]⟩, 2 + 8, [], true⟩, .polled,
         [.setLastRequestTime 1, .httpPost "g" "a", .setLastRequestTime (2 + 8)]) := by
      unfold fetch_measurements_iter
      rw [if_neg hg]
      rfl
    rw [hit]
    simp
  exact ((hne hslept).2.1 (.ok []) rfl).1

/-- Claim C1: in a poll iteration whose response is a 200 with a
well-formed `devices` array, each deviceid occurring in the array ends up
mapped to the reading `\x7btemperature: t1, humidity: h\x7d` of its last
occurrence (a wholesale replacement of any previous entry), and every
deviceid not occurring in the array keeps exactly the cache entry it had
before the iteration; the loop continues. -/
theorem success_updates_cache (s : PollerState) (now backoffNow : ℚ)
    (l : List (String × ℚ × ℚ))
    (hguard : s.last_request_time + interval ≤ now) :
    (fetch_measurements_iter s now backoffNow
        (.response 200 (.ok (l.map fun x => mkDevice x.1 x.2.1 x.2.2)))).2.1
      = .polled ∧
    ∀ deviceid,
      dictGet? (fetch_measurements_iter s now backoffNow
          (.response 200 (.ok (l.map fun x => mkDevice x.1 x.2.1 x.2.2)))).1.last_measurement
        deviceid =
      match lastReading? l deviceid with
      | some m => some m
      | none => dictGet? s.last_measurement deviceid := by
  have hpd := processDevices_map_mkDevice l s.last_measurement
  constructor
  · unfold fetch_measurements_iter dispatch_response
    rw [if_neg (not_lt.mpr hguard)]
    simp [hpd]
  · intro deviceid
    unfold fetch_measurements_iter dispatch_response
    rw [if_neg (not_lt.mpr hguard)]
    simp [hpd, dictGet_foldl]

/-- Witness for C1: sensor `"A"` reported 21.5°C / 40% is stored; absent
sensor `"B"` keeps its (empty) previous entry. -/
theorem success_updates_cache_witness :
    (fetch_measurements_iter (startState ⟨"g", ["A"]⟩) 1 1
        (.response 200 (.ok ([("A", (43/2 : ℚ), (40 : ℚ))].map
          fun x => mkDevice x.1 x.2.1 x.2.2)))).2.1 = .polled ∧
    dictGet? (fetch_measurements_iter (startState ⟨"g", ["A"]⟩) 1 1
        (.response 200 (.ok ([("A", (43/2 : ℚ), (40 : ℚ))].map
          fun x => mkDevice x.1 x.2.1 x.2.2)))).1.last_measurement "A"
      = some (mkMeas (43/2) 40) ∧
    dictGet? (fetch_measurements_iter (startState ⟨"g", ["A"]⟩) 1 1
        (.response 200 (.ok ([("A", (43/2 : ℚ), (40 : ℚ))].map
          fun x => mkDevice x.1 x.2.1 x.2.2)))).1.last_measurement "B"
      = none := by
  have h := success_updates_cache (startState ⟨"g", ["A"]⟩) 1 1 [("A", 43/2, 40)]
    (by norm_num [startState, datetimeMin, interval])
  refine ⟨h.1, ?_, ?_⟩
  · have hA := h.2 "A"
    simpa [lastReading?] using hA
  · have hB := h.2 "B"
    simpa [lastReading?, startState, dictGet?] using hB

/-- Claim C5: `collect` of the empty cache yields no gauge families at
all; `collect` of a non-empty cache (whose entries have the shape the poll
loop stores, see `cacheWF`) yields, for each cached entry, one sample
labelled with the sensor id in the `tfa_sensor_temperature` family and —
humidity data being present — one sample in the `tfa_sensor_humidity`
family.  `collect` is a pure function of the cache: it mutates nothing. -/
theorem collect_contract (cache : Cache) (hwf : cacheWF cache) :
    (cache = [] → collect cache = .ok []) ∧
    (cache ≠ [] → ∃ ts hs,
      collect cache =
        .ok [⟨"tfa_sensor_temperature", ts⟩, ⟨"tfa_sensor_humidity", hs⟩] ∧
      (∀ p ∈ cache, ∃ t, dictGet? p.2 "temperature" = some t ∧ (p.1, t) ∈ ts) ∧
      (∀ p ∈ cache, ∀ hum, dictGet? p.2 "humidity" = some hum →
        (p.1, hum) ∈ hs)) := by
  constructor
  · intro h
    subst h
    rfl
  · intro hne
    refine ⟨cache.map (fun p => (p.1, (dictGet? p.2 "temperature").getD 0)),
            cache.map (fun p => (p.1, (dictGet? p.2 "humidity").getD 0)),
            ?_, ?_, ?_⟩
    · unfold collect
      rw [if_neg hne, collectSamples_wf cache hwf]
      rfl
    · intro p hp
      obtain ⟨t, hum, hm⟩ := measWF_shape (hwf p hp)
      refine ⟨t, by rw [hm]; exact dictGet_mkMeas_temperature t hum, ?_⟩
      refine List.mem_map.mpr ⟨p, hp, ?_⟩
      rw [hm, dictGet_mkMeas_temperature]
      rfl
    · intro p hp hum' hh
      refine List.mem_map.mpr ⟨p, hp, ?_⟩
      rw [hh]
      rfl

/-- Witness for C5: the empty cache yields nothing; a one-entry cache
yields a 21.5°C temperature sample and a 40% humidity sample for `"A"`. -/
theorem collect_contract_witness :
    collect [] = .ok [] ∧
    ∃ ts hs, collect [("A", mkMeas (43/2) 40)] =
        .ok [⟨"tfa_sensor_temperature", ts⟩, ⟨"tfa_sensor_humidity", hs⟩] ∧
      ("A", (43/2 : ℚ)) ∈ ts ∧ ("A", (40 : ℚ)) ∈ hs := by
  have hwf : cacheWF [("A", mkMeas (43/2) 40)] := by
    intro p hp
    simp only [List.mem_singleton] at hp
    subst hp
    rfl
  constructor
  · exact (collect_contract [] (by intro p hp; cases hp)).1 rfl
  · obtain ⟨ts, hs, heq, ht, hh⟩ :=
      (collect_contract [("A", mkMeas (43/2) 40)] hwf).2 (by simp)
    refine ⟨ts, hs, heq, ?_, ?_⟩
    · obtain ⟨t, hteq, htmem⟩ := ht ("A", mkMeas (43/2) 40) (by simp)
      rw [dictGet_mkMeas_temperature] at hteq
      obtain rfl : (43/2 : ℚ) = t := by injection hteq
      exact htmem
    · exact hh ("A", mkMeas (43/2) 40) (by simp) 40 (dictGet_mkMeas_humidity _ _)

/-- Claim C10: starting from the empty cache, after any run of poll
iterations every cache entry is a dict with exactly the keys
`"temperature"` and `"humidity"`, so whenever the cache is non-empty
`collect` raises no `KeyError`: it emits exactly two gauge families, and
both have one sample per cached entry — the humidity sample is never
omitted. -/
theorem cache_entries_wellformed (settings : Settings) (inputs : List IterInput) :
    cacheWF (runIters (startState settings) inputs).1.last_measurement ∧
    ((runIters (startState settings) inputs).1.last_measurement ≠ [] →
      ∃ ts hs,
        collect (runIters (startState settings) inputs).1.last_measurement =
          .ok [⟨"tfa_sensor_temperature", ts⟩, ⟨"tfa_sensor_humidity", hs⟩] ∧
        ts.length = (runIters (startState settings) inputs).1.last_measurement.length ∧
        hs.length = (runIters (startState settings) inputs).1.last_measurement.length) := by
  have hwf := cacheWF_runIters (startState settings) inputs (by intro p hp; cases hp)
  refine ⟨hwf, fun hne => ?_⟩
  refine ⟨(runIters (startState settings) inputs).1.last_measurement.map
      (fun p => (p.1, (dictGet? p.2 "temperature").getD 0)),
    (runIters (startState settings) inputs).1.last_measurement.map
      (fun p => (p.1, (dictGet? p.2 "humidity").getD 0)), ?_, ?_, ?_⟩
  · unfold collect
    rw [if_neg hne, collectSamples_wf _ hwf]
    rfl
  · simp
  · simp

theorem runIters_cons (s : PollerState) (i : IterInput) (rest : List IterInput)
    (hrun : s.running = true) (s' : PollerState) (evs : List Event)
    (hit : fetch_measurements_iter s i.now i.backoffNow i.outcome = (s', .polled, evs)) :
    runIters s (i :: rest) =
      ((runIters s' rest).1, (runIters s' rest).2.1, evs ++ (runIters s' rest).2.2) := by
  conv_lhs => rw [runIters.eq_def]
  simp only [hrun, if_true]
  rw [hit]

theorem runIters_cons_died (s : PollerState) (i : IterInput) (rest : List IterInput)
    (hrun : s.running = true) (s' : PollerState) (e : PyExc) (evs : List Event)
    (hit : fetch_measurements_iter s i.now i.backoffNow i.outcome = (s', .died e, evs)) :
    runIters s (i :: rest) = (s', some e, evs) := by
  conv_lhs => rw [runIters.eq_def]
  simp only [hrun, if_true]
  rw [hit]

/-- Witness for C10: one successful poll stores sensor `"A"`, the cache is
non-empty, and `collect` emits the two fully-populated gauge families. -/
theorem cache_entries_wellformed_witness :
    ∃ ts hs,
      collect (runIters (startState ⟨"g", ["A"]⟩)
          [⟨1, 1, .response 200 (.ok [mkDevice "A" 21 40])⟩]).1.last_measurement =
        .ok [⟨"tfa_sensor_temperature", ts⟩, ⟨"tfa_sensor_humidity", hs⟩] ∧
      ts.length = (runIters (startState ⟨"g", ["A"]⟩)
          [⟨1, 1, .response 200 (.ok [mkDevice "A" 21 40])⟩]).1.last_measurement.length ∧
      hs.length = (runIters (startState ⟨"g", ["A"]⟩)
          [⟨1, 1, .response 200 (.ok [mkDevice "A" 21 40])⟩]).1.last_measurement.length := by
  apply (cache_entries_wellformed ⟨"g", ["A"]⟩
    [⟨1, 1, .response 200 (.ok [mkDevice "A" 21 40])⟩]).2
  have hg : ¬ ((startState ⟨"g", ["A"]⟩).last_request_time + interval > (1:ℚ)) := by
    norm_num [startState, datetimeMin, interval]
  have hit : fetch_measurements_iter (startState ⟨"g", ["A"]⟩) 1 1
      (.response 200 (.ok [mkDevice "A" 21 40])) =
      (⟨⟨"g", ["A"]⟩, 1, [("A", mkMeas 21 40)], true⟩, .polled,
       [.setLastRequestTime 1, .httpPost "g" "A"]) := by
    unfold fetch_measurements_iter
    rw [if_neg hg]
    rfl
  rw [runIters_cons (startState ⟨"g", ["A"]⟩)
    ⟨1, 1, .response 200 (.ok [mkDevice "A" 21 40])⟩ [] rfl _ _ hit]
  simp [runIters]

/-- Claim C4 is false of the code (code bug).  The `except ConnectionError`
handler on line 116 calls `logging.error(..., exec_info=error)` with a
misspelled keyword (line 118 spells `exc_info` correctly), so the handler
itself raises `TypeError`; an exception raised inside an `except` clause is
not caught by the sibling `except Exception` clause, so it escapes the
loop body and terminates the polling thread.  Concretely: (1) an iteration
in which `requests.post` raises the builtin `ConnectionError` dies of the
`TypeError` instead of continuing; (2) a
`requests.exceptions.ConnectionError` (not a subclass of the builtin) is
caught by `except Exception` and the loop continues; (3) once an iteration
dies, the loop processes no further inputs and the thread ends with the
uncaught `TypeError`; (4) moreover, a `KeyError` caught part-way through
the device loop still leaves the devices already processed written to the
cache, so a caught exception is not always free of cache mutation. -/
theorem exception_handling_bug :
    fetch_measurements_iter (startState ⟨"g", ["a"]⟩) 1 1 (.raised .connectionError) =
      (⟨⟨"g", ["a"]⟩, 1, [], true⟩,
       .died (.typeError "got an unexpected keyword argument"),
       [.setLastRequestTime 1, .httpPost "g" "a"]) ∧
    fetch_measurements_iter (startState ⟨"g", ["a"]⟩) 1 1
        (.raised .requestsConnectionError) =
      (⟨⟨"g", ["a"]⟩, 1, [], true⟩, .polled,
       [.setLastRequestTime 1, .httpPost "g" "a"]) ∧
    runIters (startState ⟨"g", ["a"]⟩)
        [⟨1, 1, .raised .connectionError⟩, ⟨10, 10, .response 200 (.ok [])⟩] =
      (⟨⟨"g", ["a"]⟩, 1, [], true⟩,
       some (.typeError "got an unexpected keyword argument"),
       [.setLastRequestTime 1, .httpPost "g" "a"]) ∧
    fetch_measurements_iter (startState ⟨"g", ["a"]⟩) 1 1
        (.response 200 (.ok [mkDevice "A" 21 40, ⟨some "B", none, none⟩])) =
      (⟨⟨"g", ["a"]⟩, 1, [("A", mkMeas 21 40)], true⟩, .polled,
       [.setLastRequestTime 1, .httpPost "g" "a"]) := by
  have hg : ¬ ((startState ⟨"g", ["a"]⟩).last_request_time + interval > (1:ℚ)) := by
    norm_num [startState, datetimeMin, interval]
  have hdeath : fetch_measurements_iter (startState ⟨"g", ["a"]⟩) 1 1
      (.raised .connectionError) =
      (⟨⟨"g", ["a"]⟩, 1, [], true⟩,
       .died (.typeError "got an unexpected keyword argument"),
       [.setLastRequestTime 1, .httpPost "g" "a"]) := by
    unfold fetch_measurements_iter
    rw [if_neg hg]
    rfl
  refine ⟨hdeath, ?_, ?_, ?_⟩
  · unfold fetch_measurements_iter
    rw [if_neg hg]
    rfl
  · exact runIters_cons_died (startState ⟨"g", ["a"]⟩) ⟨1, 1, .raised .connectionError⟩
      [⟨10, 10, .response 200 (.ok [])⟩] rfl _ _ _ hdeath
  · unfold fetch_measurements_iter
    rw [if_neg hg]
    rfl
